import Mathlib

/-!
Verification development for the tuna tunnel session core (`tuna.go` and the
entry-mode `main`).  The Go code is shallowly embedded: pure functions become
Lean functions, the stateful negotiation loop becomes explicit recursion over
the stream of sampled offsets, and machine integers are modelled as `Nat`/`Int`
(with an explicit `% 2 ^ 64` where the Go code uses a wrapping `uint64`
counter).  Field and function names follow the source where Lean allows it.
-/

namespace Tuna

/-! ### Metadata record (`type Metadata struct`, tuna.go lines 49-58) -/

/-- The published descriptor.  Go's `byte` field `ServiceId` is modelled as a
`Nat` (the byte range `< 256` appears as a hypothesis where it matters); the
`[]int` slices are modelled as `List Int`, with the empty list standing for
both Go's `nil` slice and an empty non-nil slice (both marshal identically
under `omitempty` and a decoded absent field is `nil`). -/
structure Metadata where
  IP : String
  TCPPort : Int
  UDPPort : Int
  ServiceId : Nat
  ServiceTCP : List Int
  ServiceUDP : List Int
  Price : String
  BeneficiaryAddr : String
deriving DecidableEq, Repr

/-- The zero value `Metadata{}` that `ReadMetadata` allocates before
unmarshalling. -/
def zeroMetadata : Metadata :=
  { IP := "", TCPPort := 0, UDPPort := 0, ServiceId := 0,
    ServiceTCP := [], ServiceUDP := [], Price := "", BeneficiaryAddr := "" }

/-! ### JSON layer (`encoding/json` as used on `Metadata`) -/

/-- JSON values that can occur in a marshalled `Metadata` object: strings,
numbers and arrays of integers. -/
inductive Jval where
  | jstr (s : String)
  | jnum (n : Int)
  | jints (xs : List Int)
deriving DecidableEq, Repr

/-- A JSON object, as an ordered list of key/value pairs. -/
abbrev Jobj := List (String × Jval)

/-- Decode failures of `json.Unmarshal` on a `Metadata` target. -/
inductive DecErr where
  | malformedJson
  | typeMismatch
deriving DecidableEq, Repr

/-- Model of `json.Marshal` on a `Metadata` value: fields appear in struct order and
the four `omitempty` fields are dropped when empty (tuna.go lines 49-58). -/
def marshalMetadata (m : Metadata) : Jobj :=
  [("ip", Jval.jstr m.IP), ("tcpPort", Jval.jnum m.TCPPort),
   ("udpPort", Jval.jnum m.UDPPort), ("serviceId", Jval.jnum (m.ServiceId : Int))]
  ++ (if m.ServiceTCP = [] then [] else [("serviceTcp", Jval.jints m.ServiceTCP)])
  ++ (if m.ServiceUDP = [] then [] else [("serviceUdp", Jval.jints m.ServiceUDP)])
  ++ (if m.Price = "" then [] else [("price", Jval.jstr m.Price)])
  ++ (if m.BeneficiaryAddr = "" then [] else [("beneficiaryAddr", Jval.jstr m.BeneficiaryAddr)])

/-- Keep the first decode error encountered, as `json.Unmarshal` reports. -/
def firstErr (e : Option DecErr) (e2 : DecErr) : Option DecErr :=
  match e with
  | some e0 => some e0
  | none => some e2

/-- One step of `json.Unmarshal` into a `Metadata` target: a known key of the
right shape sets the field, a known key of the wrong shape records a type
error but decoding continues (Go skips the offending value), and an unknown
key is ignored. -/
def setField (acc : Metadata × Option DecErr) (kv : String × Jval) : Metadata × Option DecErr :=
  let m := acc.1
  let e := acc.2
  let k := kv.1
  let v := kv.2
  if k = "ip" then
    match v with
    | Jval.jstr s => ({ m with IP := s }, e)
    | _ => (m, firstErr e DecErr.typeMismatch)
  else if k = "tcpPort" then
    match v with
    | Jval.jnum n => ({ m with TCPPort := n }, e)
    | _ => (m, firstErr e DecErr.typeMismatch)
  else if k = "udpPort" then
    match v with
    | Jval.jnum n => ({ m with UDPPort := n }, e)
    | _ => (m, firstErr e DecErr.typeMismatch)
  else if k = "serviceId" then
    match v with
    | Jval.jnum n =>
      if 0 ≤ n ∧ n < 256 then ({ m with ServiceId := n.toNat }, e)
      else (m, firstErr e DecErr.typeMismatch)
    | _ => (m, firstErr e DecErr.typeMismatch)
  else if k = "serviceTcp" then
    match v with
    | Jval.jints xs => ({ m with ServiceTCP := xs }, e)
    | _ => (m, firstErr e DecErr.typeMismatch)
  else if k = "serviceUdp" then
    match v with
    | Jval.jints xs => ({ m with ServiceUDP := xs }, e)
    | _ => (m, firstErr e DecErr.typeMismatch)
  else if k = "price" then
    match v with
    | Jval.jstr s => ({ m with Price := s }, e)
    | _ => (m, firstErr e DecErr.typeMismatch)
  else if k = "beneficiaryAddr" then
    match v with
    | Jval.jstr s => ({ m with BeneficiaryAddr := s }, e)
    | _ => (m, firstErr e DecErr.typeMismatch)
  else
    (m, e)

/-- Model of `json.Unmarshal` of an object into a fresh `Metadata`: start from the zero
record and fill the fields in order (later duplicates win). -/
def unmarshalMetadata (o : Jobj) : Metadata × Option DecErr :=
  o.foldl setField (zeroMetadata, none)

/-- Model of `ReadMetadata` (tuna.go lines 302-306): allocate a fresh zero record, then
unmarshal.  The input is the descriptor string after the JSON parse stage:
`none` models text that is not a JSON object at all, in which case the fresh
record stays zero and an error is reported — the record is returned either
way. -/
def ReadMetadata (input : Option Jobj) : Metadata × Option DecErr :=
  match input with
  | none => (zeroMetadata, some DecErr.malformedJson)
  | some o => unmarshalMetadata o

/-- Model of `CreateRawMetadata` (tuna.go lines 308-333): build the record from the
explicit fields and marshal it.  `json.Marshal` cannot fail on this struct, so
the model returns the object directly. -/
def CreateRawMetadata (serviceId : Nat) (serviceTCP serviceUDP : List Int)
    (ip : String) (tcpPort udpPort : Int) (price beneficiaryAddr : String) : Jobj :=
  marshalMetadata
    { IP := ip, TCPPort := tcpPort, UDPPort := udpPort, ServiceId := serviceId,
      ServiceTCP := serviceTCP, ServiceUDP := serviceUDP, Price := price,
      BeneficiaryAddr := beneficiaryAddr }

/-! ### Price parsing and the price gate -/

/-- Parse a list of decimal digits into a natural number (most significant
first); fails on any non-digit. -/
def parseDigits (cs : List Char) : Option Nat :=
  cs.foldl
    (fun acc c =>
      match acc with
      | none => none
      | some n => if c.isDigit then some (n * 10 + (c.toNat - 48)) else none)
    (some 0)

/-- Split a character list at every occurrence of `sep` (the single-character
case of `strings.Split`); always returns at least one group. -/
def splitOnChar (sep : Char) : List Char → List (List Char)
  | [] => [[]]
  | c :: cs =>
    match splitOnChar sep cs with
    | [] => if c = sep then [[], [c]] else [[c]]
    | g :: gs => if c = sep then [] :: g :: gs else (c :: g) :: gs

/-- Modelled from the spec: the fixed-point amount type (`common.Fixed64`,
an external dependency not under src/) is a 64-bit integer count of 10^-8
units; a decimal string parses into that scale. -/
def parseFixed64 (cs : List Char) : Option Int :=
  if cs = [] then none
  else
    match splitOnChar (Char.ofNat 46) cs with
    | [ipart] => (parseDigits ipart).map (fun n => (n : Int) * 100000000)
    | [ipart, fpart] =>
      if fpart.length ≤ 8 then
        match parseDigits ipart, parseDigits fpart with
        | some i, some f =>
          some ((i : Int) * 100000000 + (f : Int) * ((10 ^ (8 - fpart.length) : Nat) : Int))
        | _, _ => none
      else none
    | _ => none

/-- Modelled from the spec: `ParsePrice` is called by `CreateServerConn`
(tuna.go line 267) but its definition is not under src/.  Per the spec,
"price strings are two fixed-point decimal amounts separated by a delimiter,
parsed into an entry→exit rate and exit→entry rate"; the delimiter is the
comma of the spec's scenario descriptor.  Malformed input fails. -/
def ParsePrice (price : String) : Option (Int × Int) :=
  match splitOnChar (Char.ofNat 44) price.data with
  | [a, b] =>
    match parseFixed64 a, parseFixed64 b with
    | some x, some y => some (x, y)
    | _, _ => none
  | _ => none

/-- The negotiated prices the session records on acceptance
(`c.EntryToExitPrice`, `c.ExitToEntryPrice`). -/
structure PriceState where
  EntryToExitPrice : Int
  ExitToEntryPrice : Int
deriving DecidableEq, Repr

/-- The price gate of `CreateServerConn` (tuna.go lines 267-283): parse the
candidate's price string; a parse failure or a price above either ceiling
skips the candidate (`none`), otherwise the session's prices are set to the
parsed pair. -/
def priceGate (maxE2X maxX2E : Int) (price : String) : Option PriceState :=
  match ParsePrice price with
  | none => none
  | some (entryToExitPrice, exitToEntryPrice) =>
    if maxE2X < entryToExitPrice then none
    else if maxX2E < exitToEntryPrice then none
    else some { EntryToExitPrice := entryToExitPrice, ExitToEntryPrice := exitToEntryPrice }

/-! ### Negotiation loop (`CreateServerConn`, tuna.go lines 213-300)

The loop repeatedly: queries the subscriber count (an error is returned to the
caller; a zero count returns the no-providers error), samples a random offset,
fetches the single subscriber at that offset (an error is returned to the
caller; an empty page resamples), and evaluates the candidate; every failure
inside the candidate pipeline — descriptor decode, payment-receiver
derivation, price parse, price ceiling, dial — is logged and the loop
resamples (`continue RandomSubscriber`).  The stream of `rand.Intn` samples is
made explicit as a list of offsets; recursion is on that list, and exhausting
it is the modelling artifact `outOfSamples` (the Go loop would keep
sampling). -/

/-- One candidate as the loop sees it: the descriptor string (after the JSON
parse stage), the result of deriving a payment receiver from the subscriber's
client address (`none` models a failure anywhere in the
ParseClientAddress → NewPubKeyFromBytes → CreateProgramHash → ToAddress
chain), and whether `UpdateServerConn` succeeds for it. -/
structure Candidate where
  descriptor : Option Jobj
  derivedReceiver : Option String
  dialOk : Bool

/-- The directory as the loop queries it: `GetSubscribersCount` and
`GetSubscribers` at an offset (`.ok none` models an empty subscribers map, in
which case the inner `range` body never runs and the loop resamples). -/
structure Directory where
  countRes : Except String Nat
  fetch : Nat → Except String (Option Candidate)

/-- Outcome of evaluating one candidate in the loop body. -/
inductive Step where
  | skip
  | commit (receiver : String) (e2x x2e : Int)
deriving DecidableEq, Repr

/-- The candidate pipeline of the loop body (tuna.go lines 232-294):
`SetMetadata` decode, beneficiary-or-derived payment receiver, `ParsePrice`,
the two ceiling checks, then `UpdateServerConn`; any failure skips. -/
def evalCandidate (maxE2X maxX2E : Int) (cand : Candidate) : Step :=
  match ReadMetadata cand.descriptor with
  | (_, some _) => Step.skip
  | (meta, none) =>
    let receiver? : Option String :=
      if 0 < meta.BeneficiaryAddr.length then some meta.BeneficiaryAddr
      else cand.derivedReceiver
    match receiver? with
    | none => Step.skip
    | some receiver =>
      match ParsePrice meta.Price with
      | none => Step.skip
      | some (entryToExitPrice, exitToEntryPrice) =>
        if maxE2X < entryToExitPrice then Step.skip
        else if maxX2E < exitToEntryPrice then Step.skip
        else if cand.dialOk then Step.commit receiver entryToExitPrice exitToEntryPrice
        else Step.skip

/-- Result of the negotiation loop. -/
inductive NegoResult where
  | ok (receiver : String) (e2x x2e : Int)
  | noProviders
  | dirError (msg : String)
  | outOfSamples
deriving DecidableEq, Repr

/-- The `RandomSubscriber` loop, with the number of skipped samples counted in
the second component.  Each iteration re-queries the count exactly as the
source does; since the directory is a fixed parameter the answer is the same
each round. -/
def negotiateTrace (dir : Directory) (maxE2X maxX2E : Int) :
    List Nat → NegoResult × Nat
  | [] =>
    match dir.countRes with
    | Except.error e => (NegoResult.dirError e, 0)
    | Except.ok n =>
      if n = 0 then (NegoResult.noProviders, 0) else (NegoResult.outOfSamples, 0)
  | offset :: rest =>
    match dir.countRes with
    | Except.error e => (NegoResult.dirError e, 0)
    | Except.ok n =>
      if n = 0 then (NegoResult.noProviders, 0)
      else
        match dir.fetch offset with
        | Except.error e => (NegoResult.dirError e, 0)
        | Except.ok none =>
          let r := negotiateTrace dir maxE2X maxX2E rest
          (r.1, r.2 + 1)
        | Except.ok (some cand) =>
          match evalCandidate maxE2X maxX2E cand with
          | Step.skip =>
            let r := negotiateTrace dir maxE2X maxX2E rest
            (r.1, r.2 + 1)
          | Step.commit receiver e2x x2e => (NegoResult.ok receiver e2x x2e, 0)

/-- The negotiation result as `CreateServerConn` returns it. -/
def negotiate (dir : Directory) (maxE2X maxX2E : Int) (offsets : List Nat) : NegoResult :=
  (negotiateTrace dir maxE2X maxX2E offsets).1

/-- A sample at offset `o` is skipped by the loop: either the fetched page is
empty or the fetched candidate fails the pipeline. -/
def skipsSample (dir : Directory) (maxE2X maxX2E : Int) (o : Nat) : Prop :=
  dir.fetch o = Except.ok none ∨
    ∃ cand, dir.fetch o = Except.ok (some cand) ∧ evalCandidate maxE2X maxX2E cand = Step.skip

/-! ### `SetMetadata` (tuna.go lines 127-135) -/

/-- Session state relevant to `SetMetadata`, with heap identity of the
committed `Metadata` record made explicit: each `ReadMetadata` call allocates
a fresh record, modelled by an allocation counter; `MetadataId` is the
identity of the record the `Metadata` field currently points to. -/
structure SessionState where
  alloc : Nat
  MetadataId : Nat
  MetadataVal : Metadata
deriving DecidableEq, Repr

/-- Model of `SetMetadata`: `c.Metadata, err = ReadMetadata(metadataString)` — the
field is assigned the freshly allocated record before the error check, so it
is overwritten on the error path too; the boolean reports decode success. -/
def SetMetadata (c : SessionState) (input : Option Jobj) : SessionState × Bool :=
  let r := ReadMetadata input
  let c2 : SessionState :=
    { alloc := c.alloc + 1, MetadataId := c.alloc + 1, MetadataVal := r.1 }
  match r.2 with
  | some _ => (c2, false)
  | none => (c2, true)

/-! ### Relay engine (`copyBuffer` and `Pipe`, tuna.go lines 388-419) -/

/-- Errors visible to `copyBuffer`: end-of-input, a short write, or other
read/write errors. -/
inductive CopyErr where
  | eof
  | shortWrite
  | writeErr
  | readErr
deriving DecidableEq, Repr

/-- The intermediate buffer size `make([]byte, 32768)`. -/
def bufSize : Nat := 32768

/-- Model of `copyBuffer` (tuna.go lines 388-413).  The source is modelled as the
finite sequence of `Read` results, each a chunk of bytes (length ≤ `bufSize`)
plus an optional error returned alongside it; the end of the list is the
`(0, io.EOF)` read.  The destination is a function from the chunk to the
count written and an optional write error.  The `uint64` byte counter wraps
modulo `2 ^ 64` as `atomic.AddUint64` does.  Returns the function's result
(`none` = nil error) and the final counter. -/
def copyBuffer (write : List Nat → Nat × Option CopyErr) :
    List (List Nat × Option CopyErr) → Nat → Option CopyErr × Nat
  | [], written => (none, written)
  | (chunk, rerr) :: rest, written =>
    if 0 < chunk.length then
      let w := write chunk
      let written2 := if 0 < w.1 then (written + w.1) % 2 ^ 64 else written
      match w.2 with
      | some e => (some e, written2)
      | none =>
        if chunk.length ≠ w.1 then (some CopyErr.shortWrite, written2)
        else
          match rerr with
          | none => copyBuffer write rest written2
          | some CopyErr.eof => (none, written2)
          | some e => (some e, written2)
    else
      match rerr with
      | none => copyBuffer write rest written
      | some CopyErr.eof => (none, written)
      | some e => (some e, written)

/-- A destination whose `Write` always accepts the whole chunk. -/
def fullWrite : List Nat → Nat × Option CopyErr :=
  fun chunk => (chunk.length, none)

/-! ### `Close` (tuna.go lines 421-429) -/

/-- An `io.Closer` argument: the untyped nil interface, a typed-nil handle
(non-nil interface holding a nil pointer), or a live handle whose `Close`
returns an optional error.  Transport handles are pointer-kinded, so
`reflect.ValueOf(conn).IsNil()` is well-defined on all of them. -/
inductive Handle where
  | nilInterface
  | typedNil
  | live (closeErr : Option String)
deriving DecidableEq, Repr

/-- The `conn == nil` test. -/
def isNilInterface : Handle → Bool
  | Handle.nilInterface => true
  | _ => false

/-- The `reflect.ValueOf(conn).IsNil()` test. -/
def reflectIsNil : Handle → Bool
  | Handle.typedNil => true
  | _ => false

/-- Invoking `conn.Close()` on the dynamic value: on a nil interface or a
typed-nil receiver this would fault (`Except.error` models the panic);
otherwise it yields the handle's close error. -/
def callClose : Handle → Except String (Option String)
  | Handle.nilInterface => Except.error "nil interface method call"
  | Handle.typedNil => Except.error "nil pointer dereference"
  | Handle.live e => Except.ok e

/-- Model of `Close`: guard out nil handles, call `Close`, and only log a close error.
The result is the panic (if any) or the log lines; the Go function returns
nothing, so no error can be propagated. -/
def Close (conn : Handle) : Except String (List String) :=
  if isNilInterface conn || reflectIsNil conn then Except.ok []
  else
    match callClose conn with
    | Except.error p => Except.error p
    | Except.ok none => Except.ok []
    | Except.ok (some e) => Except.ok ["Error while closing: " ++ e]

/-! ### Publisher republish loop (`UpdateMetadata`, tuna.go lines 335-386) -/

/-- The sleep the republish loop picks for one iteration, from the publish
outcome: on success, `(subscriptionDuration-3) * ConsensusDuration` when the
duration exceeds 3 rounds and one `ConsensusDuration` otherwise; on failure,
one second (tuna.go lines 371-381). -/
def updateWait (consensusDur oneSecond : Nat) (publishOk : Bool)
    (subscriptionDuration : Nat) : Nat :=
  if publishOk then
    if 3 < subscriptionDuration then (subscriptionDuration - 3) * consensusDur
    else consensusDur
  else oneSecond

/-- One iteration of the republish loop as a step: `some wait` means the loop
sleeps `wait` and continues; `none` would model the loop returning, but the
body has no return or break, so the step always continues. -/
def republishStep (consensusDur oneSecond : Nat) (publishOk : Bool)
    (subscriptionDuration : Nat) : Option Nat :=
  some (updateWait consensusDur oneSecond publishOk subscriptionDuration)

/-! ### UDP close-signal delivery (tuna.go lines 137-169; entry `main`
lines 78-153)

On a socket-closed read error the reader sends one value on the shared
`udpCloseChan` and returns; each writer pump terminates only by receiving
from that channel.  The abstract state is `(signalDelivered, pumpsAlive)`:
the only transition is the rendezvous in which the reader's single send is
consumed by one pump, which then returns.  Draining the write channel is a
self-loop and is omitted. -/

/-- The close-signal transition system: the reader's one send wakes exactly
one pump. -/
inductive PumpStep : Bool × Nat → Bool × Nat → Prop
  | closeSignal (n : Nat) : PumpStep (false, n + 1) (true, n)

/-- States reachable after the socket is closed, starting from `k` writer
pumps alive and the signal not yet delivered. -/
def PumpReachable (k : Nat) (s : Bool × Nat) : Prop :=
  Relation.ReflTransGen PumpStep (false, k) s

/-! ## Theorems -/

/-- C1: the price gate of provider selection rejects a candidate whose price
string parses to `(e2x, x2e)` iff `e2x` exceeds the entry-to-exit ceiling or
`x2e` exceeds the exit-to-entry ceiling, and on acceptance the session's
`EntryToExitPrice`/`ExitToEntryPrice` are the parsed prices, which satisfy
both ceilings. -/
theorem priceGate_skips_iff (maxE2X maxX2E e2x x2e : Int) (price : String)
    (h : ParsePrice price = some (e2x, x2e)) :
    (priceGate maxE2X maxX2E price = none ↔ (maxE2X < e2x ∨ maxX2E < x2e)) ∧
    ∀ st, priceGate maxE2X maxX2E price = some st →
      st.EntryToExitPrice = e2x ∧ st.ExitToEntryPrice = x2e ∧
      e2x ≤ maxE2X ∧ x2e ≤ maxX2E := by
  unfold priceGate
  rw [h]
  by_cases h1 : maxE2X < e2x
  · simp [h1]
  · by_cases h2 : maxX2E < x2e
    · simp [h1, h2]
    · simp [h1, h2]
      omega

/-- Witness for C1, on the spec's scenario descriptor price `0.001,0.002`
(parsed at the 10^-8 fixed-point scale): ceilings `(0.0001, 0.01)` reject it,
ceilings `(0.01, 0.01)` accept it with the parsed prices committed. -/
theorem priceGate_skips_iff_witness :
    priceGate 10000 1000000 "0.001,0.002" = none ∧
    priceGate 1000000 1000000 "0.001,0.002" =
      some { EntryToExitPrice := 100000, ExitToEntryPrice := 200000 } := by
  constructor
  · exact (priceGate_skips_iff 10000 1000000 100000 200000 "0.001,0.002"
      (by decide)).1.mpr (Or.inl (by decide))
  · decide

/-- C2: metadata encode/decode round-trip — decoding the object produced by
`CreateRawMetadata` yields exactly the record built from the fields, including
when optional fields are empty and therefore omitted from the encoding (the
absent fields decode to their zero values, which are those empty values). -/
theorem metadata_roundTrip (serviceId : Nat) (serviceTCP serviceUDP : List Int)
    (ip : String) (tcpPort udpPort : Int) (price beneficiaryAddr : String)
    (h : serviceId < 256) :
    ReadMetadata (some (CreateRawMetadata serviceId serviceTCP serviceUDP ip
        tcpPort udpPort price beneficiaryAddr)) =
      ({ IP := ip, TCPPort := tcpPort, UDPPort := udpPort, ServiceId := serviceId,
         ServiceTCP := serviceTCP, ServiceUDP := serviceUDP, Price := price,
         BeneficiaryAddr := beneficiaryAddr }, none) := by
  have h0 : (0 : Int) ≤ (serviceId : Int) := Int.natCast_nonneg _
  have h256 : (serviceId : Int) < 256 := by exact_mod_cast h
  unfold ReadMetadata CreateRawMetadata marshalMetadata unmarshalMetadata
  split_ifs <;> simp_all [setField, firstErr, zeroMetadata]

/-- Witness for C2 on the spec's scenario descriptor (optional list fields and
beneficiary omitted). -/
theorem metadata_roundTrip_witness :
    ReadMetadata (some (CreateRawMetadata 3 [] [] "203.0.113.5" 30020 30021
        "0.001,0.002" "")) =
      ({ IP := "203.0.113.5", TCPPort := 30020, UDPPort := 30021, ServiceId := 3,
         ServiceTCP := [], ServiceUDP := [], Price := "0.001,0.002",
         BeneficiaryAddr := "" }, none) :=
  metadata_roundTrip 3 [] [] "203.0.113.5" 30020 30021 "0.001,0.002" ""
    (by decide)

/-- C4: when the directory reports a subscriber count of zero, negotiation
returns the no-service-providers error at once — for every fetch behaviour
(no page is consulted), every ceiling pair and every sample stream. -/
theorem noProviders_before_fetch (fetch : Nat → Except String (Option Candidate))
    (maxE2X maxX2E : Int) (offsets : List Nat) :
    negotiate { countRes := Except.ok 0, fetch := fetch } maxE2X maxX2E offsets =
      NegoResult.noProviders := by
  cases offsets <;> simp [negotiate, negotiateTrace]

/-- C5 counterexample: a failing subscriber-count query is returned to the
caller of `CreateServerConn` (tuna.go lines 219-222 `return err`), refuting
the claim that directory errors are only logged and cause a retry. -/
theorem directory_error_surfaced :
    negotiate { countRes := Except.error "rpc error",
                fetch := fun _ => Except.ok none } 0 0 [0] =
      NegoResult.dirError "rpc error" := rfl

/-- C5 as amended: subscriber-count and subscriber-list query errors are
returned to the caller of `CreateServerConn`; it is the candidate-level
failures (descriptor decode, receiver derivation, price parse, price ceiling,
dial) and empty pages that are logged and make the loop retry with a fresh
sample. -/
theorem negotiation_error_paths (dir : Directory) (maxE2X maxX2E : Int)
    (o : Nat) (rest : List Nat) :
    (∀ e, dir.countRes = Except.error e →
      negotiate dir maxE2X maxX2E (o :: rest) = NegoResult.dirError e) ∧
    (∀ n e, dir.countRes = Except.ok n → n ≠ 0 → dir.fetch o = Except.error e →
      negotiate dir maxE2X maxX2E (o :: rest) = NegoResult.dirError e) ∧
    (∀ n, dir.countRes = Except.ok n → n ≠ 0 → skipsSample dir maxE2X maxX2E o →
      negotiate dir maxE2X maxX2E (o :: rest) = negotiate dir maxE2X maxX2E rest) := by
  refine ⟨?_, ?_, ?_⟩
  · intro e he
    simp [negotiate, negotiateTrace, he]
  · intro n e hc hn hf
    simp [negotiate, negotiateTrace, hc, hn, hf]
  · intro n hc hn hs
    rcases hs with hempty | ⟨cand, hf, hskip⟩
    · simp [negotiate, negotiateTrace, hc, hn, hempty]
    · simp [negotiate, negotiateTrace, hc, hn, hf, hskip]

/-- Witness for the amended C5: a count error and a list error are surfaced;
an empty page retries on the remaining samples. -/
theorem negotiation_error_paths_witness :
    negotiate { countRes := Except.error "q", fetch := fun _ => Except.ok none }
        0 0 [1, 2] = NegoResult.dirError "q" ∧
    negotiate { countRes := Except.ok 2, fetch := fun _ => Except.error "p" }
        0 0 [1, 2] = NegoResult.dirError "p" ∧
    negotiate { countRes := Except.ok 2, fetch := fun _ => Except.ok none }
        0 0 [1, 2] =
      negotiate { countRes := Except.ok 2, fetch := fun _ => Except.ok none }
        0 0 [2] :=
  ⟨(negotiation_error_paths _ 0 0 1 [2]).1 "q" rfl,
   (negotiation_error_paths _ 0 0 1 [2]).2.1 2 "p" rfl (by decide) rfl,
   (negotiation_error_paths _ 0 0 1 [2]).2.2 2 rfl (by decide) (Or.inl rfl)⟩

/-- C3 counterexample: offsets are sampled with replacement
(`rand.Intn` each round), so a failed offset can be drawn again and the
"at most N skips" bound fails.  Directory of N = 2 candidates — offset 0
priced above the ceilings, offset 1 conforming; the sample stream draws the
failed offset 0 three times, so the loop performs 3 > 2 = N skips before the
acceptance. -/
theorem negotiation_bound_counterexample :
    negotiateTrace
      { countRes := Except.ok 2,
        fetch := fun o =>
          if o = 0 then
            Except.ok (some
              { descriptor := some (CreateRawMetadata 1 [] [] "10.0.0.1" 1 1
                  "1.0,1.0" "x"),
                derivedReceiver := some "addr0", dialOk := true })
          else if o = 1 then
            Except.ok (some
              { descriptor := some (CreateRawMetadata 2 [] [] "10.0.0.2" 2 2
                  "0.001,0.002" "y"),
                derivedReceiver := some "addr1", dialOk := true })
          else Except.ok none }
      1000000 1000000 [0, 0, 0, 1] =
      (NegoResult.ok "y" 100000 200000, 3) ∧ 2 < 3 := by
  constructor
  · decide
  · decide

/-- C3 as amended: the loop commits at the first sampled offset whose
candidate passes every check, after exactly as many skips as there were
earlier samples; since offsets are drawn with replacement, the skip count is
the position of the first conforming sample in the random stream — it is not
bounded by the candidate count N, and the loop terminates precisely when the
stream contains a conforming sample. -/
theorem negotiation_first_conforming_sample (dir : Directory)
    (maxE2X maxX2E : Int) (pre : List Nat) (o : Nat) (rest : List Nat)
    (n : Nat) (cand : Candidate) (receiver : String) (e2x x2e : Int)
    (hc : dir.countRes = Except.ok n) (hn : n ≠ 0)
    (hpre : ∀ p ∈ pre, skipsSample dir maxE2X maxX2E p)
    (ho : dir.fetch o = Except.ok (some cand))
    (hcommit : evalCandidate maxE2X maxX2E cand = Step.commit receiver e2x x2e) :
    negotiateTrace dir maxE2X maxX2E (pre ++ o :: rest) =
      (NegoResult.ok receiver e2x x2e, pre.length) := by
  induction pre with
  | nil => simp [negotiateTrace, hc, hn, ho, hcommit]
  | cons p ps ih =>
    have htail : ∀ q ∈ ps, skipsSample dir maxE2X maxX2E q :=
      fun q hq => hpre q (by simp [hq])
    rcases hpre p (by simp) with hempty | ⟨c2, hf2, hskip2⟩
    · simp [negotiateTrace, hc, hn, hempty, ih htail]
    · simp [negotiateTrace, hc, hn, hf2, hskip2, ih htail]

/-- Witness for the amended C3: one skipped sample (the over-priced offset 0)
before the conforming offset 1. -/
theorem negotiation_first_conforming_sample_witness :
    negotiateTrace
      { countRes := Except.ok 2,
        fetch := fun o =>
          if o = 0 then
            Except.ok (some
              { descriptor := some (CreateRawMetadata 1 [] [] "10.0.0.3" 1 1
                  "1.0,1.0" "x"),
                derivedReceiver := some "addr0", dialOk := true })
          else if o = 1 then
            Except.ok (some
              { descriptor := some (CreateRawMetadata 2 [] [] "10.0.0.4" 2 2
                  "0.001,0.002" "y"),
                derivedReceiver := some "addr1", dialOk := true })
          else Except.ok none }
      1000000 1000000 ([0] ++ 1 :: []) =
      (NegoResult.ok "y" 100000 200000, [0].length) := by
  refine negotiation_first_conforming_sample _ 1000000 1000000 [0] 1 [] 2 _
    "y" 100000 200000 rfl (by decide) ?_ rfl (by decide)
  intro p hp
  simp only [List.mem_singleton] at hp
  subst hp
  exact Or.inr ⟨_, rfl, by decide⟩

/-- C6: in every iteration of the republish loop, a successful publish is
followed by a sleep of `max(subscriptionDuration - 3, 1)` consensus-round
durations and a failed publish by the fixed one-second sleep; the step always
continues (`some`), so the loop never terminates. -/
theorem republish_schedule (consensusDur oneSecond : Nat) (okSeq : Nat → Bool)
    (subscriptionDuration : Nat) (n : Nat) :
    republishStep consensusDur oneSecond (okSeq n) subscriptionDuration =
      some (if okSeq n then max (subscriptionDuration - 3) 1 * consensusDur
            else oneSecond) := by
  cases hok : okSeq n with
  | false => simp [republishStep, updateWait]
  | true =>
    simp only [republishStep, updateWait, if_true, Option.some.injEq]
    by_cases hd : 3 < subscriptionDuration
    · have hmax : max (subscriptionDuration - 3) 1 = subscriptionDuration - 3 := by
        omega
      simp [hd, hmax]
    · have hmax : max (subscriptionDuration - 3) 1 = 1 := by omega
      simp [hd, hmax]

/-- C7: relaying a source that delivers chunks totalling `S` bytes (each read
at most the 32768-byte buffer) and then end-of-input, to a destination that
accepts every write, returns success and increases the byte counter by
exactly `S`. -/
theorem copyBuffer_accounting (reads : List (List Nat)) (written0 : Nat)
    (hbuf : ∀ chunk ∈ reads, chunk.length ≤ bufSize)
    (hov : written0 + (reads.map List.length).sum < 2 ^ 64) :
    copyBuffer fullWrite (reads.map (fun c => (c, none))) written0 =
      (none, written0 + (reads.map List.length).sum) := by
  induction reads generalizing written0 with
  | nil => simp [copyBuffer]
  | cons chunk rest ih =>
    have hrest : ∀ c ∈ rest, c.length ≤ bufSize :=
      fun c hc => hbuf c (by simp [hc])
    by_cases hz : 0 < chunk.length
    · have hsum : written0 + (((chunk :: rest).map List.length).sum) =
          (written0 + chunk.length) + ((rest.map List.length).sum) := by
        simp; omega
      have hlt : written0 + chunk.length < 2 ^ 64 := by
        simp at hov; omega
      have hmod : (written0 + chunk.length) % 2 ^ 64 = written0 + chunk.length :=
        Nat.mod_eq_of_lt hlt
      have hov2 : (written0 + chunk.length) + (rest.map List.length).sum < 2 ^ 64 := by
        simp at hov; omega
      simp only [List.map_cons, copyBuffer, fullWrite, hz, if_true, hmod,
        ne_eq, not_true_eq_false, if_false]
      rw [ih (written0 + chunk.length) hrest hov2]
      simp; omega
    · have hchunk : chunk = [] := by
        cases chunk with
        | nil => rfl
        | cons a l => simp at hz
      subst hchunk
      simp only [List.map_cons, copyBuffer]
      rw [ih written0 hrest (by simpa using hov)]
      simp

/-- Witness for C7: three reads of 3, 0 and 2 bytes starting from counter 10
finish cleanly at counter 15. -/
theorem copyBuffer_accounting_witness :
    copyBuffer fullWrite [([1, 2, 3], none), ([], none), ([4, 5], none)] 10 =
      (none, 15) := by
  have h := copyBuffer_accounting [[1, 2, 3], [], [4, 5]] 10 (by decide)
    (by norm_num)
  simpa using h

/-- C8: the `Close` helper neither panics nor propagates an error on any
handle — the untyped nil interface, a typed-nil handle, and a handle whose
`Close` returns an error included; a close error only produces a log line. -/
theorem close_never_panics (conn : Handle) :
    ∃ logs, Close conn = Except.ok logs := by
  cases conn with
  | nilInterface => exact ⟨[], rfl⟩
  | typedNil => exact ⟨[], rfl⟩
  | live e =>
    cases e with
    | none => exact ⟨[], rfl⟩
    | some msg => exact ⟨["Error while closing: " ++ msg], rfl⟩

/-- C9 (code bug): the reader announces socket closure with a single channel
send, which is consumed by exactly one writer pump; in every state reachable
after closure, at least `k - 1` of the `k` pumps are still alive, so for
`k ≥ 2` some pump never observes the close signal — the notification is not
broadcast. -/
theorem udp_close_single_delivery (k : Nat) (s : Bool × Nat)
    (h : PumpReachable k s) : k - 1 ≤ s.2 := by
  have key : ∀ t, PumpReachable k t → t = (false, k) ∨ t = (true, k - 1) := by
    intro t ht
    induction ht with
    | refl => exact Or.inl rfl
    | tail hab hbc ih =>
      rcases ih with rfl | rfl
      · cases hbc with
        | closeSignal n =>
          right
          rfl
      · cases hbc
  rcases key s h with rfl | rfl
  · simp
  · simp

/-- Witness for C9 with two writer pumps: after the close signal is delivered
one pump is still alive. -/
theorem udp_close_single_delivery_witness :
    PumpReachable 2 (true, 1) ∧ 2 - 1 ≤ (true, 1).2 := by
  have hr : PumpReachable 2 (true, 1) :=
    Relation.ReflTransGen.single (PumpStep.closeSignal 1)
  exact ⟨hr, udp_close_single_delivery 2 (true, 1) hr⟩

/-- C10: `SetMetadata` assigns the freshly allocated record from
`ReadMetadata` to the session's `Metadata` field before the error check, so
for every input the committed record is replaced — a new allocation, never
the previously committed one — and the boolean is `false` exactly when
decoding failed. -/
theorem setMetadata_overwrites (c : SessionState) (input : Option Jobj)
    (h : c.MetadataId ≤ c.alloc) :
    (SetMetadata c input).1.MetadataVal = (ReadMetadata input).1 ∧
    (SetMetadata c input).1.MetadataId ≠ c.MetadataId ∧
    ((SetMetadata c input).2 = false ↔ (ReadMetadata input).2.isSome) := by
  cases h2 : (ReadMetadata input).2 with
  | none => simp [SetMetadata, h2]; omega
  | some e => simp [SetMetadata, h2]; omega

/-- Witness for C10: on unparsable input the session still commits the fresh
zero record and reports failure. -/
theorem setMetadata_overwrites_witness :
    (SetMetadata { alloc := 0, MetadataId := 0, MetadataVal := zeroMetadata }
        none).1.MetadataVal = (ReadMetadata none).1 ∧
    (SetMetadata { alloc := 0, MetadataId := 0, MetadataVal := zeroMetadata }
        none).1.MetadataId ≠ 0 ∧
    ((SetMetadata { alloc := 0, MetadataId := 0, MetadataVal := zeroMetadata }
        none).2 = false ↔ (ReadMetadata none).2.isSome) := by
  have h := setMetadata_overwrites
    { alloc := 0, MetadataId := 0, MetadataVal := zeroMetadata } none
    (by decide)
  simpa using h

end Tuna
